import Mathlib

/-!
Verification of the service lifecycle orchestrator of `lib/unity_cache_server.js`
(class `UnityCacheServer`), via a shallow embedding of its operations:

* `saveConfig` — refuse to overwrite an existing configuration file;
* `getMirrors` — mirror-target resolution with the self-mirror guard;
* the worker-topology decision inside `start` (worker count, fork count,
  whether the master process starts the server itself);
* the `SIGINT`/`SIGTERM` shutdown handlers installed by `start`
  (`process.once` per signal, shutdown sequence trace);
* `initCache` — the process-wide cache-backend singleton gate;
* `cleanup` — the capability gate, the summary-percentage computation of the
  `cleanup_delete_finish` handler, and the sliced-sleep daemon loop.

Effectful JavaScript is embedded with explicit state: the filesystem is a map
from paths to contents, log output is a list of (level, message) pairs, the
backend singleton is threaded as a `GateState`, and the daemon loop is a
fuel-indexed recursion over discrete millisecond time.
-/

set_option autoImplicit false

namespace UCS

/-- Log levels used by the orchestrator, mirroring the `consts.LOG_*`
constants referenced by `unity_cache_server.js` (numeric values live in
`lib/constants.js`, outside the embedded file; only their identity matters). -/
inductive LogLevel where
  | err
  | info
  | dbg
deriving DecidableEq, Repr

/-! ### saveConfig (lib/unity_cache_server.js lines 16-31)

The filesystem is modelled as a map from paths to file contents
(`String → Option String`).  `saveConfig` first checks
`fs.pathExistsSync(configFile)`; if the file exists it logs the error message
at error level and throws, touching no file.  Otherwise it writes the dumped
configuration data to the file and logs an informational notice.
(`path.resolve` and the `default.yml` fallback for a non-string argument only
canonicalise the path and are outside the claims; the path is taken as given.) -/

/-- Error message built by `saveConfig` when the target file already exists. -/
def alreadyExistsMsg (configFile : String) : String :=
  configFile ++ " already exists - will not overwrite."

/-- Result of a `saveConfig` call: the filesystem afterwards, the log lines
emitted, and either the thrown error message or success. -/
structure SaveResult where
  fs : String → Option String
  logs : List (LogLevel × String)
  result : Except String Unit

/-- Embedding of `UnityCacheServer.saveConfig`.  `configData` stands for
`yaml.safeDump(require('config'))`, computed only on the success path in the
source but equal either way. -/
def saveConfig (fs : String → Option String) (configFile : String)
    (configData : String) : SaveResult :=
  if (fs configFile).isSome then
    { fs := fs
      logs := [(LogLevel.err, alreadyExistsMsg configFile)]
      result := Except.error (alreadyExistsMsg configFile) }
  else
    { fs := fun p => if p = configFile then some configData else fs p
      logs := [(LogLevel.info, "config saved to " ++ configFile)]
      result := Except.ok () }

/-! ### getMirrors (lib/unity_cache_server.js lines 33-49)

Candidates are taken after `helpers.parseAndValidateAddressString` has
resolved them (that helper lives outside the embedded file); a candidate is a
resolved `(host, port)` pair.  `ip.isEqual` is semantic equality of resolved
addresses, modelled as equality of canonical host strings.  `Promise.all`
keeps input order in the fulfilled case and rejects with the first failure;
the sequential `Except` recursion below has the same observable outcome. -/

/-- Resolved mirror candidate: host address and port. -/
structure MirrorTarget where
  host : String
  port : Nat
deriving DecidableEq, Repr

/-- Loopback alias checked by the self-mirror guard. -/
def loopback : String := "127.0.0.1"

/-- Error message thrown for a self-mirror candidate. -/
def selfMirrorMsg : String := "Cannot mirror to self!"

/-- Self-mirror test from line 41: `(ip.isEqual(myIp, result.host) ||
ip.isEqual("127.0.0.1", result.host)) && myPort === result.port`. -/
def isSelfMirror (myIp : String) (myPort : Nat) (m : MirrorTarget) : Bool :=
  (m.host == myIp || m.host == loopback) && m.port == myPort

/-- Embedding of `UnityCacheServer.getMirrors` over already-resolved
candidates: each candidate failing the self-mirror guard aborts the whole
resolution, otherwise the candidates are returned in input order. -/
def getMirrors (myIp : String) (myPort : Nat) :
    List MirrorTarget → Except String (List MirrorTarget)
  | [] => Except.ok []
  | m :: rest =>
    if isSelfMirror myIp myPort m then Except.error selfMirrorMsg
    else
      match getMirrors myIp myPort rest with
      | Except.ok r => Except.ok (m :: r)
      | Except.error e => Except.error e

/-! ### Worker topology decision inside start (lines 162-166, 195-206)

`start` reads the requested worker count from configuration, forces it to `0`
(logging the downgrade at informational level, naming the cache module) when
the backend does not declare the `clustering` capability, then, in the master
process, forks that many workers and starts the server itself exactly when
the final count is `0`. -/

/-- Informational downgrade message from line 165, naming the cache module. -/
def downgradeMsg (moduleName : String) : String :=
  "Clustering disabled, current cache module " ++ moduleName ++
    " does not support it."

/-- What the master process plans from the requested worker count and the
backend clustering capability: final worker count, optional downgrade log,
number of `cluster.fork()` calls, and whether this process starts the server
itself (`cluster.isWorker || workers === 0`, with `isWorker = false` in the
master process). -/
structure MasterPlan where
  workers : Nat
  downgradeLog : Option (LogLevel × String)
  forkCount : Nat
  startsServer : Bool
deriving DecidableEq, Repr

/-- Embedding of the topology logic of `UnityCacheServer.start` as seen from
the master process. -/
def startPlan (requested : Nat) (clustering : Bool) (moduleName : String) :
    MasterPlan :=
  let downgraded := 0 < requested ∧ clustering = false
  let workers := if downgraded then 0 else requested
  { workers := workers
    downgradeLog :=
      if downgraded then some (LogLevel.info, downgradeMsg moduleName)
      else none
    forkCount := workers
    startsServer := workers == 0 }

/-! ### Cleanup capability gate (lib/unity_cache_server.js lines 217-225)

After acquiring the backend, `cleanup` checks the backend's static `cleanup`
capability; when it is false it logs an error and calls `process.exit(1)`
before installing any event handler or starting any pass, for every
`dryRun`/`daemon` argument combination. -/

/-- Error message logged when the configured backend lacks the cleanup
capability. -/
def cleanupUnsupportedMsg : String :=
  "Configured cache module does not support cleanup script."

/-- Outcome of the capability check at the top of `UnityCacheServer.cleanup`:
either a fatal exit (with exit code and log output, zero passes started) or
permission to proceed to the cleanup work. -/
inductive CleanupGateResult where
  | fatal (exitCode : Nat) (logs : List (LogLevel × String))
  | proceed
deriving DecidableEq, Repr

/-- Embedding of the cleanup capability gate; `dryRun` and `daemon` are the
arguments of `cleanup(dryRun, daemon)`, unread by the gate itself. -/
def cleanupGate (cleanupCap : Bool) (dryRun : Bool) (daemon : Nat) :
    CleanupGateResult :=
  if cleanupCap then CleanupGateResult.proceed
  else CleanupGateResult.fatal 1 [(LogLevel.err, cleanupUnsupportedMsg)]

/-! ### Shutdown signal handling in start (lib/unity_cache_server.js lines 180-187)

`start` runs `['SIGINT', 'SIGTERM'].forEach(sig => process.once(sig, ...))`:
for EACH of the two signal names a separate once-only handler is installed.
The handler body logs "Shutting down...", awaits `cache.shutdown()`, awaits
`server.stop()`, then calls `process.exit()` (success status).

The model delivers a sequence of signals to the process before any handler
has reached `process.exit()` (the handlers are asynchronous: between the log
and the exit they suspend twice, so a signal arriving in quick succession is
delivered while a previous shutdown sequence is still in flight).  A
delivered signal runs the handler registered for its name and disarms that
name (`process.once`); a signal whose name is already disarmed does nothing.
Each handler run appends the four-event shutdown sequence to the process
trace. -/

/-- Termination signal names handled by `start`. -/
inductive Sig where
  | sigint
  | sigterm
deriving DecidableEq, Repr

/-- Observable events of the shutdown handler body. -/
inductive Ev where
  | logInfo (msg : String)
  | backendShutdown
  | serverStop
  | exitProcess (code : Nat)
deriving DecidableEq, Repr

/-- Events of one run of the handler body (lines 182-185), in program order:
informational notice, `cache.shutdown()`, `server.stop()`, `process.exit()`
with success status. -/
def shutdownSeq : List Ev :=
  [Ev.logInfo "Shutting down...", Ev.backendShutdown, Ev.serverStop,
    Ev.exitProcess 0]

/-- Signal-handling state: which signal names still have their once-handler
armed, and the trace of events emitted so far. -/
structure SigState where
  intArmed : Bool
  termArmed : Bool
  trace : List Ev
deriving DecidableEq, Repr

/-- State right after the `forEach`/`process.once` registration: both
handlers armed, nothing emitted. -/
def installHandlers : SigState :=
  { intArmed := true, termArmed := true, trace := [] }

/-- Delivery of one signal: if the once-handler for that name is still
armed, disarm it and run the shutdown sequence; otherwise ignore. -/
def deliver (s : SigState) (g : Sig) : SigState :=
  match g with
  | Sig.sigint =>
    if s.intArmed then
      { intArmed := false, termArmed := s.termArmed
        trace := s.trace ++ shutdownSeq }
    else s
  | Sig.sigterm =>
    if s.termArmed then
      { intArmed := s.intArmed, termArmed := false
        trace := s.trace ++ shutdownSeq }
    else s

/-- Delivery of a whole sequence of signals, in order. -/
def deliverAll (s : SigState) (gs : List Sig) : SigState :=
  gs.foldl deliver s

/-- Number of shutdown-sequence executions visible in a state, counted by
its `cache.shutdown()` events (each handler run contributes exactly one). -/
def shutdownRuns (s : SigState) : Nat :=
  s.trace.count Ev.backendShutdown

/-! ### Cache backend gate: initCache (lib/unity_cache_server.js lines 123-143)

The singleton check at lines 124-126 returns the existing instance without
touching configuration, construction or `init`.  Otherwise the module is
resolved, a new instance is CONSTRUCTED AND ASSIGNED to the singleton field
(line 139) BEFORE `await instance.init(myOpts)` (line 141); a rejection of
`init` propagates to the caller with the singleton already set.

Instances are modelled by numeric identities drawn from a counter; `opts`
is the caller argument (recorded when `init` is invoked); `initRes` is the
outcome the newly constructed backend's `init` would produce. -/

/-- Process-wide singleton state: the `_cache_instance` field (`none` when
unset) and the next fresh instance identity. -/
structure GateState where
  inst : Option Nat
  nextId : Nat
deriving DecidableEq, Repr

/-- Outcome of one `initCache` call: the state afterwards, the returned
instance or propagated error, whether a constructor ran, and the argument
`init` was invoked with (`none` when `init` was not invoked). -/
structure InitOutcome where
  state : GateState
  result : Except String Nat
  constructed : Bool
  initArg : Option String
deriving Repr

/-- Embedding of `UnityCacheServer.initCache`. -/
def initCache (s : GateState) (opts : String) (initRes : Except String Unit) :
    InitOutcome :=
  match s.inst with
  | some i =>
    { state := s, result := Except.ok i, constructed := false,
      initArg := none }
  | none =>
    let i := s.nextId
    let s1 : GateState := { inst := some i, nextId := s.nextId + 1 }
    match initRes with
    | Except.ok () =>
      { state := s1, result := Except.ok i, constructed := true,
        initArg := some opts }
    | Except.error e =>
      { state := s1, result := Except.error e, constructed := true,
        initArg := some opts }

/-! ### Cleanup summary percentage (lib/unity_cache_server.js lines 241-244)

The `cleanup_delete_finish` handler computes
`data.cacheSize > 0 ? (data.deleteSize/data.cacheSize).toPrecision(2) * 100 : 0`.
`Number.prototype.toPrecision(2)` rounds its receiver to two significant
decimal digits (ties away from zero for positive values).  The computation is
embedded in exact rational arithmetic: for a positive rational `q` with
`e = Int.log 10 q` (the floor of its decimal logarithm), the two-significant-
digit rounding is `round (q * 10 ^ (1 - e)) * 10 ^ (e - 1)`, where Mathlib's
`round` is floor of the value plus one half.  Binary floating-point
representation error of the JavaScript doubles is idealised away; the sizes
feeding the handler are byte counts, embedded as naturals. -/

/-- Two-significant-decimal-digit rounding of a nonnegative rational,
embedding `Number.prototype.toPrecision(2)` followed by the implicit
string-to-number coercion of the `* 100` multiplication. -/
def toPrecision2 (q : ℚ) : ℚ :=
  if q = 0 then 0
  else
    ((round (q * (10 : ℚ) ^ (1 - Int.log 10 q)) : ℤ) : ℚ) *
      (10 : ℚ) ^ (Int.log 10 q - 1)

/-- Embedding of the summary-percentage expression of the
`cleanup_delete_finish` handler (line 242). -/
def cleanupPct (deleteSize cacheSize : Nat) : ℚ :=
  if 0 < cacheSize then
    toPrecision2 ((deleteSize : ℚ) / (cacheSize : ℚ)) * 100
  else 0

/-! ### Cleanup daemon loop (lib/unity_cache_server.js lines 265-280)

`doCleanupInterval` computes `interval = Math.min(250, daemon)`, installs
`SIGINT`/`SIGTERM` handlers that set the `finished` flag, and loops: run one
cleanup pass, then sleep in slices of `interval` milliseconds
(`for(let i = 0; i < daemon; i += interval)`), breaking out of the slice loop
as soon as `finished` is observed after a slice, and re-checking `finished`
before each pass.

Time is discrete milliseconds.  `fin` is the instant at which a delivered
termination signal sets the flag (the flag reads true at instants `≥ fin`);
a pass takes `passDur` milliseconds and is never preempted.  Both loops are
embedded fuel-indexed (the source slice loop performs at most
`⌈daemon / interval⌉ ≤ daemon` iterations, the outer loop is unbounded, so
every fuel instantiates a finite prefix of it). -/

/-- Slice length `Math.min(250, daemon)` from line 266. -/
def sliceInterval (daemon : Nat) : Nat := min 250 daemon

/-- Embedding of the slice loop `for(let i = 0; i < daemon; i += interval)`:
sleep one slice, then break if the cancellation flag is set.  Arguments:
fuel, `daemon`, `interval`, flag instant `fin`, loop counter `i`, current
time `t`; the result is the time at which the loop exits. -/
def forSleep : Nat → Nat → Nat → Nat → Nat → Nat → Nat
  | 0, _, _, _, _, t => t
  | fuel + 1, daemon, interval, fin, i, t =>
    if i < daemon then
      if fin ≤ t + interval then t + interval
      else forSleep fuel daemon interval fin (i + interval) (t + interval)
    else t

/-- Embedding of the outer `while(!finished)` loop of `doCleanupInterval`:
the result is the list of instants at which cleanup passes start, paired
with the time at which the loop exits. -/
def daemonLoop : Nat → Nat → Nat → Nat → Nat → List Nat × Nat
  | 0, _, _, _, t => ([], t)
  | fuel + 1, daemon, passDur, fin, t =>
    if fin ≤ t then ([], t)
    else
      let tSleep :=
        forSleep daemon daemon (sliceInterval daemon) fin 0 (t + passDur)
      let rest := daemonLoop fuel daemon passDur fin tSleep
      (t :: rest.1, rest.2)

end UCS

namespace UCS

theorem getMirrors_eq_ite (myIp : String) (myPort : Nat)
    (ms : List MirrorTarget) :
    getMirrors myIp myPort ms =
      if ms.any (isSelfMirror myIp myPort) then Except.error selfMirrorMsg
      else Except.ok ms := by
  induction ms with
  | nil => rfl
  | cons m rest ih =>
    by_cases hm : isSelfMirror myIp myPort m
    · simp [getMirrors, hm, List.any_cons]
    · have hm0 : isSelfMirror myIp myPort m = false := by
        simpa using hm
      simp only [getMirrors, hm0, if_neg hm, ih, List.any_cons, Bool.false_or]
      by_cases hr : rest.any (isSelfMirror myIp myPort)
      · simp [hr]
      · have hr0 : rest.any (isSelfMirror myIp myPort) = false := by
          simpa using hr
        simp [hr0]

theorem shutdownRuns_deliverAll (gs : List Sig) (s : SigState) :
    shutdownRuns (deliverAll s gs) =
      shutdownRuns s +
        (if s.intArmed ∧ Sig.sigint ∈ gs then 1 else 0) +
        (if s.termArmed ∧ Sig.sigterm ∈ gs then 1 else 0) := by
  induction gs generalizing s with
  | nil => simp [deliverAll]
  | cons g gs ih =>
    have hstep : deliverAll s (g :: gs) = deliverAll (deliver s g) gs := rfl
    rw [hstep, ih]
    have hcount : ∀ t : SigState,
        shutdownRuns
            { intArmed := t.intArmed, termArmed := t.termArmed,
              trace := t.trace ++ shutdownSeq } =
          shutdownRuns t + 1 := by
      intro t
      simp [shutdownRuns, shutdownSeq, List.count_append]
    cases g with
    | sigint =>
      by_cases hi : s.intArmed
      · have : deliver s Sig.sigint =
            { intArmed := false, termArmed := s.termArmed,
              trace := s.trace ++ shutdownSeq } := by
          simp [deliver, hi]
        rw [this]
        have h1 := hcount s
        simp only [shutdownRuns] at h1 ⊢
        rw [h1]
        by_cases hti : Sig.sigterm ∈ gs <;>
          by_cases hii : Sig.sigint ∈ gs <;>
            simp [hi, hti, hii] <;> omega
      · have : deliver s Sig.sigint = s := by simp [deliver, hi]
        rw [this]
        by_cases hti : Sig.sigterm ∈ gs <;>
          by_cases hii : Sig.sigint ∈ gs <;>
            simp [hi, hti, hii]
    | sigterm =>
      by_cases ht : s.termArmed
      · have : deliver s Sig.sigterm =
            { intArmed := s.intArmed, termArmed := false,
              trace := s.trace ++ shutdownSeq } := by
          simp [deliver, ht]
        rw [this]
        have h1 := hcount s
        simp only [shutdownRuns] at h1 ⊢
        rw [h1]
        by_cases hti : Sig.sigterm ∈ gs <;>
          by_cases hii : Sig.sigint ∈ gs <;>
            simp [ht, hti, hii] <;> omega
      · have : deliver s Sig.sigterm = s := by simp [deliver, ht]
        rw [this]
        by_cases hti : Sig.sigterm ∈ gs <;>
          by_cases hii : Sig.sigint ∈ gs <;>
            simp [ht, hti, hii]

theorem forSleep_le (fuel daemon interval fin : Nat) :
    ∀ i t, forSleep fuel daemon interval fin i t ≤ max t fin + interval := by
  induction fuel with
  | zero =>
    intro i t
    exact le_trans (le_max_left t fin) (Nat.le_add_right _ _)
  | succ fuel ih =>
    intro i t
    simp only [forSleep]
    by_cases hd : i < daemon
    · rw [if_pos hd]
      by_cases hf : fin ≤ t + interval
      · rw [if_pos hf]
        exact add_le_add_right (le_max_left t fin) interval
      · rw [if_neg hf]
        have hlt : t + interval < fin := Nat.lt_of_not_le hf
        calc forSleep fuel daemon interval fin (i + interval) (t + interval)
            ≤ max (t + interval) fin + interval := ih (i + interval) (t + interval)
          _ = fin + interval := by rw [max_eq_right (le_of_lt hlt)]
          _ ≤ max t fin + interval := add_le_add_right (le_max_right t fin) interval
    · rw [if_neg hd]
      exact le_trans (le_max_left t fin) (Nat.le_add_right _ _)

theorem daemonLoop_pass_lt (daemon passDur fin : Nat) :
    ∀ fuel t s, s ∈ (daemonLoop fuel daemon passDur fin t).1 → s < fin := by
  intro fuel
  induction fuel with
  | zero =>
    intro t s hs
    simp [daemonLoop] at hs
  | succ fuel ih =>
    intro t s hs
    by_cases hf : fin ≤ t
    · simp [daemonLoop, hf] at hs
    · simp only [daemonLoop, if_neg hf] at hs
      rcases List.mem_cons.mp hs with h | h
      · exact h ▸ Nat.lt_of_not_le hf
      · exact ih _ s h

/-- C10: If the target configuration file already exists, `saveConfig` throws
the already-exists error after logging it at error level, writes nothing, and
the filesystem (in particular the existing file) is unchanged. -/
theorem saveConfig_existing_file_unchanged
    (fs : String → Option String) (configFile configData oldContents : String)
    (h : fs configFile = some oldContents) :
    (saveConfig fs configFile configData).result =
        Except.error (alreadyExistsMsg configFile) ∧
      (saveConfig fs configFile configData).logs =
        [(LogLevel.err, alreadyExistsMsg configFile)] ∧
      (saveConfig fs configFile configData).fs = fs ∧
      (saveConfig fs configFile configData).fs configFile = some oldContents := by
  simp [saveConfig, h]

/-- Witness for C10: a concrete filesystem where `default.yml` holds `old`;
the call errors and the file still holds `old`. -/
theorem saveConfig_existing_file_unchanged_witness :
    (saveConfig
        (fun p => if p = "default.yml" then some "old" else none)
        "default.yml" "new").result =
      Except.error (alreadyExistsMsg "default.yml") ∧
    (saveConfig
        (fun p => if p = "default.yml" then some "old" else none)
        "default.yml" "new").fs "default.yml" = some "old" := by
  have h := saveConfig_existing_file_unchanged
    (fun p => if p = "default.yml" then some "old" else none)
    "default.yml" "new" "old" (by simp)
  exact ⟨h.1, h.2.2.2⟩

/-- C4: mirror resolution succeeds, returning the candidates in input order,
exactly when no candidate trips the self-mirror guard; any self-mirror
candidate makes the whole resolution fail with the self-mirror error; and a
candidate whose port differs from this node's own port never trips the guard
regardless of its host. -/
theorem getMirrors_selfMirror_iff (myIp : String) (myPort : Nat)
    (ms : List MirrorTarget) :
    (getMirrors myIp myPort ms = Except.ok ms ↔
        ∀ m ∈ ms, isSelfMirror myIp myPort m = false) ∧
      ((∃ m ∈ ms, isSelfMirror myIp myPort m = true) →
        getMirrors myIp myPort ms = Except.error selfMirrorMsg) ∧
      (∀ m : MirrorTarget, m.port ≠ myPort →
        isSelfMirror myIp myPort m = false) := by
  refine ⟨?_, ?_, ?_⟩
  · rw [getMirrors_eq_ite]
    by_cases ha : ms.any (isSelfMirror myIp myPort)
    · simp only [ha, if_pos]
      constructor
      · intro hcontra
        cases hcontra
      · intro hall
        rcases List.any_eq_true.mp ha with ⟨m, hmem, hm⟩
        rw [hall m hmem] at hm
        cases hm
    · simp only [ha, if_neg]
      simp only [List.any_eq_true, not_exists, not_and] at ha
      constructor
      · intro _ m hmem
        exact Bool.eq_false_iff.mpr (fun hc => (ha m hmem |>.elim hc))
      · intro _
        rfl
  · intro hex
    rcases hex with ⟨m, hmem, hm⟩
    rw [getMirrors_eq_ite, if_pos (List.any_eq_true.mpr ⟨m, hmem, hm⟩)]
  · intro m hp
    simp [isSelfMirror, hp]

/-- Witness for C4: with own address `10.0.0.7:8126`, a loopback candidate on
a different port and a distinct-host candidate are both accepted in order,
while a loopback candidate on port 8126 aborts resolution. -/
theorem getMirrors_selfMirror_iff_witness :
    getMirrors "10.0.0.7" 8126
        [⟨"127.0.0.1", 9000⟩, ⟨"10.0.0.8", 8126⟩] =
      Except.ok [⟨"127.0.0.1", 9000⟩, ⟨"10.0.0.8", 8126⟩] ∧
    getMirrors "10.0.0.7" 8126 [⟨"127.0.0.1", 8126⟩] =
      Except.error selfMirrorMsg := by
  constructor
  · exact (getMirrors_selfMirror_iff "10.0.0.7" 8126
      [⟨"127.0.0.1", 9000⟩, ⟨"10.0.0.8", 8126⟩]).1.mpr (by decide)
  · exact (getMirrors_selfMirror_iff "10.0.0.7" 8126
      [⟨"127.0.0.1", 8126⟩]).2.1 ⟨⟨"127.0.0.1", 8126⟩, by decide, by decide⟩

/-- C5: with no clustering capability any positive request is downgraded to
zero workers (with an informational log naming the cache module) and the
process runs standalone (starts the server itself, forks nothing); a zero
request runs standalone regardless of capability; a positive request with
clustering forks exactly that many workers and the master does not start the
server itself. -/
theorem startPlan_topology (requested : Nat) (clustering : Bool)
    (moduleName : String) :
    (0 < requested → clustering = false →
        startPlan requested clustering moduleName =
          { workers := 0
            downgradeLog := some (LogLevel.info, downgradeMsg moduleName)
            forkCount := 0
            startsServer := true }) ∧
      (requested = 0 →
        startPlan requested clustering moduleName =
          { workers := 0, downgradeLog := none, forkCount := 0
            startsServer := true }) ∧
      (0 < requested → clustering = true →
        startPlan requested clustering moduleName =
          { workers := requested, downgradeLog := none
            forkCount := requested, startsServer := false }) := by
  refine ⟨?_, ?_, ?_⟩
  · intro hpos hcap
    simp [startPlan, hpos, hcap]
  · intro h0
    subst h0
    simp [startPlan]
  · intro hpos hcap
    subst hcap
    simp [startPlan, Nat.pos_iff_ne_zero.mp hpos]

/-- Witness for C5: requesting 3 workers without clustering capability yields
a standalone plan with the downgrade log; requesting 3 with clustering forks
3 and does not start the server in the master. -/
theorem startPlan_topology_witness :
    startPlan 3 false "cache_fs" =
      { workers := 0
        downgradeLog := some (LogLevel.info, downgradeMsg "cache_fs")
        forkCount := 0
        startsServer := true } ∧
    startPlan 0 true "cache_ram" =
      { workers := 0, downgradeLog := none, forkCount := 0
        startsServer := true } ∧
    startPlan 3 true "cache_ram" =
      { workers := 3, downgradeLog := none, forkCount := 3
        startsServer := false } := by
  refine ⟨?_, ?_, ?_⟩
  · exact (startPlan_topology 3 false "cache_fs").1 (by decide) rfl
  · exact (startPlan_topology 0 true "cache_ram").2.1 rfl
  · exact (startPlan_topology 3 true "cache_ram").2.2 (by decide) rfl

/-- C9: when the backend lacks the cleanup capability, `cleanup` exits the
process with status 1 after logging the unsupported-cleanup message at error
level, for every `dryRun` and `daemon` argument; no cleanup pass is started
(the gate never yields `proceed`). -/
theorem cleanupGate_no_capability (dryRun : Bool) (daemon : Nat) :
    cleanupGate false dryRun daemon =
        CleanupGateResult.fatal 1 [(LogLevel.err, cleanupUnsupportedMsg)] ∧
      cleanupGate false dryRun daemon ≠ CleanupGateResult.proceed := by
  constructor
  · rfl
  · intro h
    cases h

/-- Witness for C9: a concrete daemon-mode dry-run invocation against a
backend without the cleanup capability exits fatally with status 1 and never
proceeds to a pass. -/
theorem cleanupGate_no_capability_witness :
    cleanupGate false true 60000 =
        CleanupGateResult.fatal 1 [(LogLevel.err, cleanupUnsupportedMsg)] ∧
      cleanupGate false true 60000 ≠ CleanupGateResult.proceed :=
  cleanupGate_no_capability true 60000

theorem cleanupPct_eq_round_of_ratio_ge_tenth (d c : Nat) (h0 : 0 < c)
    (h1 : c ≤ 10 * d) (h2 : d ≤ c) :
    cleanupPct d c = ((round (((d : ℚ) / (c : ℚ)) * 100) : ℤ) : ℚ) := by
  have hd0 : 0 < d := by omega
  have hcq : (0 : ℚ) < (c : ℚ) := by exact_mod_cast h0
  have hdq : (0 : ℚ) < (d : ℚ) := by exact_mod_cast hd0
  have hq0 : (0 : ℚ) < (d : ℚ) / (c : ℚ) := div_pos hdq hcq
  rcases Nat.lt_or_ge d c with hdc | hdc
  · -- ratio strictly between one tenth and one: two significant digits of
    -- the ratio are exactly the integer percentage digits
    have hq1 : (d : ℚ) / (c : ℚ) < 1 := by
      rw [div_lt_one hcq]
      exact_mod_cast hdc
    have hinv : ((d : ℚ) / (c : ℚ))⁻¹ = (c : ℚ) / (d : ℚ) := inv_div _ _
    have hinv1 : (1 : ℚ) < ((d : ℚ) / (c : ℚ))⁻¹ := by
      rw [hinv, lt_div_iff hdq, one_mul]
      exact_mod_cast hdc
    have hinv10 : ((d : ℚ) / (c : ℚ))⁻¹ ≤ 10 := by
      rw [hinv, div_le_iff hdq]
      calc (c : ℚ) ≤ ((10 * d : Nat) : ℚ) := by exact_mod_cast h1
        _ = 10 * (d : ℚ) := by push_cast; ring
    have hceil2 : 2 ≤ ⌈((d : ℚ) / (c : ℚ))⁻¹⌉₊ := by
      have := Nat.lt_ceil.mpr (show ((1 : Nat) : ℚ) < ((d : ℚ) / (c : ℚ))⁻¹ by
        exact_mod_cast hinv1)
      omega
    have hceil10 : ⌈((d : ℚ) / (c : ℚ))⁻¹⌉₊ ≤ 10 := by
      apply Nat.ceil_le.mpr
      exact_mod_cast hinv10
    have hlog : Int.log 10 ((d : ℚ) / (c : ℚ)) = -1 := by
      rw [Int.log_of_right_le_one 10 (le_of_lt hq1),
        Nat.clog_eq_one hceil2 hceil10]
      norm_num
    rw [cleanupPct, if_pos h0, toPrecision2, if_neg (ne_of_gt hq0), hlog]
    rw [show (1 : ℤ) - (-1) = 2 from rfl, show (-1 : ℤ) - 1 = -2 from rfl]
    rw [show ((10 : ℚ) ^ (2 : ℤ)) = 100 by norm_num]
    rw [mul_assoc]
    rw [show ((10 : ℚ) ^ (-2 : ℤ)) * 100 = 1 by norm_num, mul_one]
  · -- ratio equal to one: both sides are one hundred
    have hdc2 : d = c := le_antisymm h2 hdc
    subst hdc2
    have hq : (d : ℚ) / (d : ℚ) = 1 := div_self (ne_of_gt hcq)
    rw [cleanupPct, if_pos h0, hq, toPrecision2, if_neg one_ne_zero,
      Int.log_one_right]
    norm_num

/-- Counterexample for C3: at `cacheSize = 10000`, `deleteSize = 123` the
code reports `toPrecision(2)` of the ratio times one hundred, namely `1.2`,
while `round(deleteSize / cacheSize * 100)` is `1`; the claimed formula does
not match the code below a ratio of one tenth. -/
theorem cleanupPct_round_counterexample :
    cleanupPct 123 10000 = 6 / 5 ∧
      ((round (((123 : ℚ) / 10000) * 100) : ℤ) : ℚ) = 1 ∧
      cleanupPct 123 10000 ≠ ((round (((123 : ℚ) / 10000) * 100) : ℤ) : ℚ) := by
  have hlog : Int.log 10 ((123 : ℚ) / 10000) = -2 := by
    rw [Int.log_of_right_le_one 10 (by norm_num)]
    have hceil : ⌈((123 : ℚ) / 10000)⁻¹⌉₊ = 82 := by
      rw [Nat.ceil_eq_iff (by norm_num)]
      constructor <;> norm_num
    rw [hceil, Nat.clog_of_two_le (by norm_num) (by norm_num)]
    norm_num
    rw [Nat.clog_eq_one (by norm_num) (by norm_num)]
    norm_num
  have hcast : ((123 : Nat) : ℚ) / ((10000 : Nat) : ℚ) = (123 : ℚ) / 10000 := by
    norm_num
  have h1 : cleanupPct 123 10000 = 6 / 5 := by
    rw [cleanupPct, if_pos (by norm_num), hcast, toPrecision2,
      if_neg (by norm_num), hlog]
    rw [show (1 : ℤ) - (-2) = 3 from rfl, show (-2 : ℤ) - 1 = -3 from rfl]
    rw [show ((123 : ℚ) / 10000 : ℚ) * (10 : ℚ) ^ (3 : ℤ) = 123 / 10 by
      norm_num]
    rw [show round ((123 : ℚ) / 10) = 12 by
      rw [round_eq, Int.floor_eq_iff] <;> norm_num]
    norm_num
  have h2 : ((round (((123 : ℚ) / 10000) * 100) : ℤ) : ℚ) = 1 := by
    rw [show ((123 : ℚ) / 10000) * 100 = 123 / 100 by norm_num]
    rw [show round ((123 : ℚ) / 100) = 1 by
      rw [round_eq, Int.floor_eq_iff] <;> norm_num]
    norm_num
  refine ⟨h1, h2, ?_⟩
  rw [h1, h2]
  norm_num

/-- C3 (amended): the summary percentage is `0` when `cacheSize = 0` (no
division error), equals the ratio rounded to two significant decimal digits
times one hundred in general, which coincides with
`round(deleteSize / cacheSize * 100)` whenever the ratio is at least one
tenth (and at most one); in particular `cacheSize = 1000`,
`deleteSize = 250` yields `25`. -/
theorem cleanupPct_summary (d c : Nat) :
    (c = 0 → cleanupPct d c = 0) ∧
      (0 < c → c ≤ 10 * d → d ≤ c →
        cleanupPct d c = ((round (((d : ℚ) / (c : ℚ)) * 100) : ℤ) : ℚ)) ∧
      cleanupPct 250 1000 = 25 := by
  refine ⟨?_, ?_, ?_⟩
  · intro h0
    subst h0
    rfl
  · intro h0 h1 h2
    exact cleanupPct_eq_round_of_ratio_ge_tenth d c h0 h1 h2
  · rw [cleanupPct_eq_round_of_ratio_ge_tenth 250 1000 (by norm_num)
      (by norm_num) (by norm_num)]
    rw [show ((250 : Nat) : ℚ) / ((1000 : Nat) : ℚ) * 100 = 25 by norm_num]
    norm_num

/-- Witness for C3 (amended): the hypotheses of the round-coincidence part
hold at `deleteSize = 250`, `cacheSize = 1000`, where the code value equals
the rounded percentage. -/
theorem cleanupPct_summary_witness :
    cleanupPct 250 1000 =
      ((round (((250 : Nat) : ℚ) / ((1000 : Nat) : ℚ) * 100) : ℤ) : ℚ) :=
  (cleanupPct_summary 250 1000).2.1 (by norm_num) (by norm_num) (by norm_num)

/-- Counterexample for C1: delivering SIGINT and then SIGTERM in quick
succession (the second while the first handler is still awaiting the
shutdown steps) runs the shutdown sequence twice, not exactly once: each
signal name carries its own `process.once` handler and no shared flag guards
the body. -/
theorem shutdown_once_counterexample :
    shutdownRuns (deliverAll installHandlers [Sig.sigint, Sig.sigterm]) = 2 ∧
      shutdownRuns (deliverAll installHandlers [Sig.sigint, Sig.sigterm]) ≠ 1 := by
  constructor
  · rfl
  · intro h
    rw [show shutdownRuns (deliverAll installHandlers
        [Sig.sigint, Sig.sigterm]) = 2 from rfl] at h
    cases h

/-- C1 (amended): the shutdown sequence executes exactly once per distinct
delivered signal NAME: repeated deliveries of the same signal are ignored
after the first, but one SIGINT and one SIGTERM delivered in quick
succession each trigger the sequence, so it can run up to twice. -/
theorem shutdown_once_per_signal_name (gs : List Sig) :
    shutdownRuns (deliverAll installHandlers gs) =
      (if Sig.sigint ∈ gs then 1 else 0) +
        (if Sig.sigterm ∈ gs then 1 else 0) := by
  rw [shutdownRuns_deliverAll]
  simp [installHandlers, shutdownRuns]

/-- C6: on the first delivered termination signal (either name), the handler
emits exactly the ordered trace: informational shutdown notice, backend
shutdown, server stop, process exit with success status; in particular the
server-stop event occurs strictly after the backend-shutdown event. -/
theorem shutdown_sequence_order (g : Sig) :
    (deliver installHandlers g).trace =
        [Ev.logInfo "Shutting down...", Ev.backendShutdown, Ev.serverStop,
          Ev.exitProcess 0] ∧
      (deliver installHandlers g).trace.indexOf Ev.backendShutdown <
        (deliver installHandlers g).trace.indexOf Ev.serverStop := by
  cases g <;> exact ⟨rfl, by decide⟩

/-- Witness for C1 (amended): two SIGINTs in a row run the shutdown sequence
once (the duplicate is ignored), while SIGINT followed by SIGTERM in quick
succession runs it twice. -/
theorem shutdown_once_per_signal_name_witness :
    shutdownRuns (deliverAll installHandlers [Sig.sigint, Sig.sigint]) = 1 ∧
      shutdownRuns (deliverAll installHandlers [Sig.sigint, Sig.sigterm]) =
        2 := by
  constructor
  · rw [shutdown_once_per_signal_name]
    decide
  · rw [shutdown_once_per_signal_name]
    decide

/-- Counterexample for C2: when `init` rejects on the very first `initCache`
call, the error is propagated, but the process-wide singleton IS already set
(the assignment at line 139 precedes the `await` at line 141), so a
subsequent call does NOT attempt construction again: it returns the broken
instance without running a constructor or `init`. -/
theorem initCache_failure_counterexample :
    (initCache ⟨none, 0⟩ "optsA" (Except.error "init failed")).result =
        Except.error "init failed" ∧
      (initCache ⟨none, 0⟩ "optsA" (Except.error "init failed")).state.inst ≠
        none ∧
      (initCache
          (initCache ⟨none, 0⟩ "optsA" (Except.error "init failed")).state
          "optsB" (Except.ok ())).constructed = false ∧
      (initCache
          (initCache ⟨none, 0⟩ "optsA" (Except.error "init failed")).state
          "optsB" (Except.ok ())).result = Except.ok 0 := by
  refine ⟨rfl, ?_, rfl, rfl⟩
  intro h
  cases h

/-- C2 (amended): if the backend's `init` fails during `initCache`, the
error is propagated to the caller, but the process-wide singleton IS set
before `init` is awaited, so a subsequent `initCache` call returns the
already-constructed (never successfully initialised) instance without
attempting construction or `init` again. -/
theorem initCache_failure_sets_singleton (s : GateState) (opts e : String)
    (h : s.inst = none) :
    (initCache s opts (Except.error e)).result = Except.error e ∧
      (initCache s opts (Except.error e)).state.inst = some s.nextId ∧
      ∀ opts2 : String, ∀ r2 : Except String Unit,
        (initCache (initCache s opts (Except.error e)).state opts2 r2).result =
            Except.ok s.nextId ∧
          (initCache (initCache s opts (Except.error e)).state opts2
              r2).constructed = false ∧
          (initCache (initCache s opts (Except.error e)).state opts2
              r2).initArg = none := by
  refine ⟨?_, ?_, ?_⟩ <;> simp [initCache, h]

/-- Witness for C2 (amended): concrete failing first call from the fresh
state; the error propagates, the singleton holds instance 0, and a retry
with different options returns instance 0 without constructing or
initialising. -/
theorem initCache_failure_sets_singleton_witness :
    (initCache ⟨none, 0⟩ "cachePathA" (Except.error "disk full")).result =
        Except.error "disk full" ∧
      (initCache
          (initCache ⟨none, 0⟩ "cachePathA" (Except.error "disk full")).state
          "cachePathB" (Except.ok ())).result = Except.ok 0 := by
  have h := initCache_failure_sets_singleton ⟨none, 0⟩ "cachePathA"
    "disk full" rfl
  exact ⟨h.1, (h.2.2 "cachePathB" (Except.ok ())).1⟩

/-- C7: once a first `initCache` call has constructed and initialised the
singleton, a second call with any (possibly different) arguments returns the
same instance, runs no constructor, and does not invoke `init` again; the
singleton state is unchanged. -/
theorem initCache_second_call_memoized (s : GateState) (opts1 opts2 : String)
    (r2 : Except String Unit) (h : s.inst = none) :
    (initCache s opts1 (Except.ok ())).result = Except.ok s.nextId ∧
      (initCache (initCache s opts1 (Except.ok ())).state opts2 r2).result =
        Except.ok s.nextId ∧
      (initCache (initCache s opts1 (Except.ok ())).state opts2
          r2).constructed = false ∧
      (initCache (initCache s opts1 (Except.ok ())).state opts2 r2).initArg =
        none ∧
      (initCache (initCache s opts1 (Except.ok ())).state opts2 r2).state =
        (initCache s opts1 (Except.ok ())).state := by
  refine ⟨?_, ?_, ?_, ?_, ?_⟩ <;> simp [initCache, h]

/-- Witness for C7: a successful first call with one options value followed
by a second call with a different options value and a failing hypothetical
`init` outcome still returns instance 0 without construction. -/
theorem initCache_second_call_memoized_witness :
    (initCache ⟨none, 0⟩ "optsOne" (Except.ok ())).result = Except.ok 0 ∧
      (initCache (initCache ⟨none, 0⟩ "optsOne" (Except.ok ())).state
          "optsTwo" (Except.error "never run")).result = Except.ok 0 ∧
      (initCache (initCache ⟨none, 0⟩ "optsOne" (Except.ok ())).state
          "optsTwo" (Except.error "never run")).constructed = false := by
  have h := initCache_second_call_memoized ⟨none, 0⟩ "optsOne" "optsTwo"
    (Except.error "never run") rfl
  exact ⟨h.1, h.2.1, h.2.2.1⟩

/-- C8: the daemon sleep between Cleanup passes is sliced: each slice is at
most 250 ms; the slice loop exits within one slice length (so within 250 ms)
of the cancellation flag instant, never waiting out the rest of the
interval; and no cleanup pass ever starts at or after the flag instant. -/
theorem cleanup_daemon_sliced_cancellation :
    (∀ daemon : Nat, sliceInterval daemon ≤ 250) ∧
      (∀ fuel daemon fin i t : Nat,
        forSleep fuel daemon (sliceInterval daemon) fin i t ≤
          max t fin + 250) ∧
      (∀ fuel daemon passDur fin t s : Nat,
        s ∈ (daemonLoop fuel daemon passDur fin t).1 → s < fin) := by
  refine ⟨?_, ?_, ?_⟩
  · intro daemon
    exact Nat.min_le_left 250 daemon
  · intro fuel daemon fin i t
    exact le_trans (forSleep_le fuel daemon (sliceInterval daemon) fin i t)
      (add_le_add_left (Nat.min_le_left 250 daemon) _)
  · intro fuel daemon passDur fin t s hs
    exact daemonLoop_pass_lt daemon passDur fin fuel t s hs

/-- Witness for C8: with a 1000 ms interval and the flag set at instant 300,
a slice loop started at instant 100 exits by instant 550, and the only pass
of a concrete daemon run starts at instant 0, before the flag instant. -/
theorem cleanup_daemon_sliced_cancellation_witness :
    forSleep 4 1000 (sliceInterval 1000) 300 0 100 ≤ 550 ∧
      (0 : Nat) < 300 := by
  constructor
  · have h := cleanup_daemon_sliced_cancellation.2.1 4 1000 300 0 100
    simpa using h
  · exact cleanup_daemon_sliced_cancellation.2.2 2 1000 100 300 0 0
      (by simp [daemonLoop, forSleep, sliceInterval])

end UCS
